import Mathlib

/-!
Verification of the Flux simulation orchestrator (`src/flux/src/flux.rs`).

The orchestrator's clock arithmetic (`f32`/`f64` in the source) is embedded
over `ℚ`, so `0.001`, `1/10`, `1000.0` and the decimal test inputs are exact.
The GPU-side components (fluid solver, drawer, noise generator, GL context)
live outside this file's scope; their per-substep invocations are recorded as
an explicit operation trace, and their fallible constructors are represented
by their outcomes.
-/

/-- `const MAX_ELAPSED_TIME: f32 = 1000.0;` — the time at which the animation
timer resets to zero. -/
def MAX_ELAPSED_TIME : ℚ := 1000

/-- `const MAX_FRAME_TIME: f32 = 1.0 / 10.0;` -/
def MAX_FRAME_TIME : ℚ := 1 / 10

/-- `settings::Mode` — the closed set of render modes matched on at the end of
`Flux::animate`. -/
inductive Mode where
  | Normal
  | DebugNoise
  | DebugFluid
  | DebugPressure
  | DebugDivergence
  deriving DecidableEq

/-- A noise channel config; its parameters are opaque to the orchestrator
(it only iterates over the list in `Flux::new` and hands it to
`noise_generator.update`). -/
structure NoiseChannel where
  id : ℕ
  deriving DecidableEq

/-- The fields of `settings::Settings` the orchestrator reads:
`fluid_simulation_frame_rate`, `noise_channels` and `mode`. The remaining
visual parameters are opaque to `flux.rs`. -/
structure Settings where
  fluid_simulation_frame_rate : ℚ
  noise_channels : List NoiseChannel
  mode : Mode
  deriving DecidableEq

/-- The texture views an `animate` call can hand to `drawer.draw_texture`. -/
inductive Texture where
  | noise
  | velocity
  | pressure
  | divergence
  deriving DecidableEq

/-- One externally observable operation issued by `Flux::animate` to the
fluid solver, noise generator, drawer or GL context. -/
inductive Op where
  | noiseGenerate (elapsed_time : ℚ)
  | advectForward (dt : ℚ)
  | advectReverse (dt : ℚ)
  | adjustAdvection (dt : ℚ)
  | diffuse (dt : ℚ)
  | blendNoiseInto (dt : ℚ)
  | calculateDivergence
  | solvePressure
  | subtractGradient
  | placeLines (elapsed_time timestep : ℚ)
  | clearColor
  | clear
  | drawLines
  | drawEndpoints
  | drawTexture (t : Texture)
  deriving DecidableEq

/-- The clock state of `struct Flux`. The GPU-resident components (`fluid`,
`drawer`, `noise_generator`, `context`) hold no state this specification's
claims depend on; their invocations appear in the `Op` trace instead. -/
@[ext]
structure Flux where
  settings : Settings
  last_timestamp : ℚ
  elapsed_time : ℚ
  frame_time : ℚ
  fluid_timestep : ℚ
  deriving DecidableEq

/-- `render::Problem` is opaque to `flux.rs`; only its identity matters for
error wrapping, so it is embedded as a string of diagnostic detail. -/
abbrev RenderProblem := String

/-- `enum Problem` from `flux.rs`. -/
inductive Problem where
  | CannotReadSettings (msg : String)
  | CannotRender (p : RenderProblem)
  deriving DecidableEq

/-- `Problem`'s `fmt::Display`: `CannotReadSettings` prints its message,
`CannotRender` prints the wrapped render problem's own rendering. -/
def Problem.display : Problem → String
  | Problem.CannotReadSettings msg => msg
  | Problem.CannotRender render_msg => render_msg

/-- `Flux::update`: swaps the settings reference. The calls
`fluid.update`, `drawer.update` and `noise_generator.update` mutate GPU-side
component state outside this model. Note that `update` does NOT touch
`fluid_timestep`. -/
def Flux.update (f : Flux) (settings : Settings) : Flux :=
  { f with settings := settings }

/-- `Flux::new`. `Fluid::new`, `Drawer::new` and the noise generator's
`build` are constructors of components outside `flux.rs`; each is
represented by its outcome (`fluidRes`, `drawerRes`, `noiseRes`), and
`flux.rs`'s own `map_err(Problem::CannotRender)?` chain is translated
verbatim. On success every clock field starts at the literal written in the
source. -/
def Flux.new (settings : Settings)
    (fluidRes : Except RenderProblem Unit)
    (drawerRes : Except RenderProblem Unit)
    (noiseRes : Except RenderProblem Unit) : Except Problem Flux :=
  match fluidRes with
  | Except.error e => Except.error (Problem.CannotRender e)
  | Except.ok _ =>
    match drawerRes with
    | Except.error e => Except.error (Problem.CannotRender e)
    | Except.ok _ =>
      match noiseRes with
      | Except.error e => Except.error (Problem.CannotRender e)
      | Except.ok _ =>
        Except.ok
          { settings := settings
            last_timestamp := 0
            elapsed_time := 0
            frame_time := 0
            fluid_timestep := 1 / settings.fluid_simulation_frame_rate }

/-- The fixed sequence of operations issued by one iteration of the
`while self.frame_time >= self.fluid_timestep` loop body in `Flux::animate`. -/
def substepOps (elapsed_time fluid_timestep : ℚ) : List Op :=
  [Op.noiseGenerate elapsed_time,
   Op.advectForward fluid_timestep,
   Op.advectReverse fluid_timestep,
   Op.adjustAdvection fluid_timestep,
   Op.diffuse fluid_timestep,
   Op.blendNoiseInto fluid_timestep,
   Op.calculateDivergence,
   Op.solvePressure,
   Op.subtractGradient]

/-- The `while self.frame_time >= self.fluid_timestep` loop of
`Flux::animate`: returns the drained `frame_time`, the number of substeps
run, and the operations issued. The conjunct `0 < ts` in the guard is the
termination precondition: with `ts ≤ 0` the source loop never exits, so the
model is faithful exactly on the terminating domain (every claim below
assumes `0 < fluid_timestep`). -/
def drainLoop (ts elapsed ft : ℚ) : ℚ × ℕ × List Op :=
  if h : 0 < ts ∧ ts ≤ ft then
    let r := drainLoop ts elapsed (ft - ts)
    (r.1, r.2.1 + 1, substepOps elapsed ts ++ r.2.2)
  else
    (ft, 0, [])
termination_by (⌊ft / ts⌋).toNat
decreasing_by
  have h1 : (1 : ℚ) ≤ ft / ts := (one_le_div h.1).mpr h.2
  have h2 : (1 : ℤ) ≤ ⌊ft / ts⌋ := Int.le_floor.mpr (by exact_mod_cast h1)
  have h3 : ⌊(ft - ts) / ts⌋ = ⌊ft / ts⌋ - 1 := by
    rw [sub_div, div_self (ne_of_gt h.1), Int.floor_sub_one]
  omega

/-- The draw dispatch at the end of `Flux::animate`: the
`match &self.settings.mode` selecting exactly one draw path. -/
def drawDispatch : Mode → List Op
  | Mode.Normal => [Op.drawLines, Op.drawEndpoints]
  | Mode.DebugNoise => [Op.drawTexture Texture.noise]
  | Mode.DebugFluid => [Op.drawTexture Texture.velocity]
  | Mode.DebugPressure => [Op.drawTexture Texture.pressure]
  | Mode.DebugDivergence => [Op.drawTexture Texture.divergence]

/-- The delta used by `Flux::animate` for a call at `timestamp`:
`f32::min(MAX_FRAME_TIME, (0.001 * (timestamp - self.last_timestamp)) as f32)`. -/
def usedDelta (f : Flux) (timestamp : ℚ) : ℚ :=
  min MAX_FRAME_TIME (0.001 * (timestamp - f.last_timestamp))

/-- Result of one `Flux::animate` call: the updated state, the number of
substeps the while loop ran, and the trace of component operations issued. -/
structure AnimateResult where
  flux : Flux
  substeps : ℕ
  ops : List Op
  deriving DecidableEq

/-- `Flux::animate`, translated statement by statement: clamp the delta,
advance `last_timestamp`, `elapsed_time` and `frame_time`, wrap
`elapsed_time` at `MAX_ELAPSED_TIME`, drain the accumulator in fixed
substeps, then `place_lines`, clear the framebuffer, and dispatch one draw
path on `settings.mode`. -/
def Flux.animate (f : Flux) (timestamp : ℚ) : AnimateResult :=
  let timestep := usedDelta f timestamp
  let elapsed0 := f.elapsed_time + timestep
  let frame0 := f.frame_time + timestep
  let timer_overflow := elapsed0 - MAX_ELAPSED_TIME
  let elapsed1 := if 0 ≤ timer_overflow then timer_overflow else elapsed0
  let d := drainLoop f.fluid_timestep elapsed1 frame0
  { flux := { f with last_timestamp := timestamp,
                     elapsed_time := elapsed1,
                     frame_time := d.1 },
    substeps := d.2.1,
    ops := d.2.2 ++ [Op.placeLines elapsed1 timestep, Op.clearColor, Op.clear]
            ++ drawDispatch f.settings.mode }

/-- Draw-path operations: the calls made inside the `match &self.settings.mode`
dispatch (`draw_lines`, `draw_endpoints`, `draw_texture`). -/
def Op.isDraw : Op → Bool
  | Op.drawLines => true
  | Op.drawEndpoints => true
  | Op.drawTexture _ => true
  | _ => false

/-- Recognizes `noise_generator.generate` invocations in a trace. -/
def Op.isNoiseGen : Op → Bool
  | Op.noiseGenerate _ => true
  | _ => false

theorem drainLoop_stop {ts elapsed ft : ℚ} (h : ¬(0 < ts ∧ ts ≤ ft)) :
    drainLoop ts elapsed ft = (ft, 0, []) := by
  rw [drainLoop.eq_def, dif_neg h]

theorem drainLoop_step {ts elapsed ft : ℚ} (h1 : 0 < ts) (h2 : ts ≤ ft) :
    drainLoop ts elapsed ft =
      ((drainLoop ts elapsed (ft - ts)).1,
       (drainLoop ts elapsed (ft - ts)).2.1 + 1,
       substepOps elapsed ts ++ (drainLoop ts elapsed (ft - ts)).2.2) := by
  rw [drainLoop.eq_def, dif_pos (⟨h1, h2⟩ : 0 < ts ∧ ts ≤ ft)]

/-- When the accumulator is already below the substep the loop body never runs. -/
theorem drainLoop_zero {ts elapsed ft : ℚ} (h : ft < ts) :
    drainLoop ts elapsed ft = (ft, 0, []) :=
  drainLoop_stop fun hc => absurd h (not_lt.mpr hc.2)

/-- When exactly one substep is due the loop runs its body once. -/
theorem drainLoop_one {ts elapsed ft : ℚ} (h1 : 0 < ts) (h2 : ts ≤ ft)
    (h3 : ft - ts < ts) :
    drainLoop ts elapsed ft = (ft - ts, 1, substepOps elapsed ts) := by
  rw [drainLoop_step h1 h2, drainLoop_zero h3]
  simp

/-- The loop drains the accumulator by exactly `substeps` whole multiples of
the fixed substep. -/
theorem drain_frame (ts elapsed ft : ℚ) :
    (drainLoop ts elapsed ft).1 = ft - ((drainLoop ts elapsed ft).2.1 : ℚ) * ts := by
  induction ft using drainLoop.induct ts elapsed with
  | case1 ft h ih =>
    rw [drainLoop_step h.1 h.2]
    simp only
    rw [ih]
    push_cast
    ring
  | case2 ft h =>
    rw [drainLoop_stop h]
    simp

/-- The loop exits only once the leftover accumulator is below the substep. -/
theorem drain_lt {ts : ℚ} (elapsed ft : ℚ) (hts : 0 < ts) :
    (drainLoop ts elapsed ft).1 < ts := by
  induction ft using drainLoop.induct ts elapsed with
  | case1 ft h ih =>
    rw [drainLoop_step h.1 h.2]
    exact ih
  | case2 ft h =>
    rw [drainLoop_stop h]
    simp only
    push_neg at h
    exact lt_of_not_le fun hc => absurd (h hts) (not_lt.mpr hc)

/-- A non-negative accumulator stays non-negative through the drain. -/
theorem drain_nonneg (ts elapsed : ℚ) :
    ∀ ft : ℚ, 0 ≤ ft → 0 ≤ (drainLoop ts elapsed ft).1 := by
  intro ft
  induction ft using drainLoop.induct ts elapsed with
  | case1 ft h ih =>
    intro _
    rw [drainLoop_step h.1 h.2]
    exact ih (sub_nonneg.mpr h.2)
  | case2 ft h =>
    intro hft
    rw [drainLoop_stop h]
    exact hft

/-- The substep count times the substep never exceeds the accumulator fed in
(clipped below at zero): the clamp-bounded budget bounds the work. -/
theorem drain_mul_le (ts elapsed : ℚ) :
    ∀ ft : ℚ, ((drainLoop ts elapsed ft).2.1 : ℚ) * ts ≤ max ft 0 := by
  intro ft
  induction ft using drainLoop.induct ts elapsed with
  | case1 ft h ih =>
    rw [drainLoop_step h.1 h.2]
    simp only
    have hge : (0 : ℚ) ≤ ft - ts := sub_nonneg.mpr h.2
    rw [max_eq_left hge] at ih
    rw [max_eq_left (le_of_lt (lt_of_lt_of_le h.1 h.2))]
    push_cast
    linarith
  | case2 ft h =>
    rw [drainLoop_stop h]
    simp [le_max_right]

/-- Every iteration of the loop calls `noise_generator.generate` exactly once,
always at the same `elapsed` phase. -/
theorem drain_ops_noise (ts elapsed : ℚ) :
    ∀ ft : ℚ, (drainLoop ts elapsed ft).2.2.filter Op.isNoiseGen
      = List.replicate (drainLoop ts elapsed ft).2.1 (Op.noiseGenerate elapsed) := by
  intro ft
  induction ft using drainLoop.induct ts elapsed with
  | case1 ft h ih =>
    rw [drainLoop_step h.1 h.2]
    simp only [List.filter_append, ih, substepOps, List.replicate_succ]
    simp [Op.isNoiseGen]
  | case2 ft h =>
    rw [drainLoop_stop h]
    simp

/-- The substep loop issues no draw-path operations. -/
theorem drain_ops_nodraw (ts elapsed : ℚ) :
    ∀ ft : ℚ, (drainLoop ts elapsed ft).2.2.filter Op.isDraw = [] := by
  intro ft
  induction ft using drainLoop.induct ts elapsed with
  | case1 ft h ih =>
    rw [drainLoop_step h.1 h.2]
    simp only [List.filter_append, ih, substepOps]
    simp [Op.isDraw]
  | case2 ft h =>
    rw [drainLoop_stop h]
    simp

/-- Each mode's dispatch consists of draw operations only. -/
theorem drawDispatch_all_draw (m : Mode) :
    (drawDispatch m).filter Op.isDraw = drawDispatch m := by
  cases m <;> rfl

/-- No mode's dispatch contains a non-draw operation. -/
theorem drawDispatch_no_other (m : Mode) :
    (drawDispatch m).filter (fun o => ! o.isDraw) = [] := by
  cases m <;> rfl

/-- No mode's dispatch invokes noise generation. -/
theorem drawDispatch_no_noise (m : Mode) :
    (drawDispatch m).filter Op.isNoiseGen = [] := by
  cases m <;> rfl

theorem animate_last_def (f : Flux) (t : ℚ) :
    (f.animate t).flux.last_timestamp = t := rfl

theorem animate_settings_def (f : Flux) (t : ℚ) :
    (f.animate t).flux.settings = f.settings := rfl

theorem animate_timestep_def (f : Flux) (t : ℚ) :
    (f.animate t).flux.fluid_timestep = f.fluid_timestep := rfl

theorem animate_elapsed_def (f : Flux) (t : ℚ) :
    (f.animate t).flux.elapsed_time
      = if 0 ≤ f.elapsed_time + usedDelta f t - MAX_ELAPSED_TIME
        then f.elapsed_time + usedDelta f t - MAX_ELAPSED_TIME
        else f.elapsed_time + usedDelta f t := rfl

theorem animate_frame_def (f : Flux) (t : ℚ) :
    (f.animate t).flux.frame_time
      = (drainLoop f.fluid_timestep ((f.animate t).flux.elapsed_time)
          (f.frame_time + usedDelta f t)).1 := rfl

theorem animate_substeps_def (f : Flux) (t : ℚ) :
    (f.animate t).substeps
      = (drainLoop f.fluid_timestep ((f.animate t).flux.elapsed_time)
          (f.frame_time + usedDelta f t)).2.1 := rfl

theorem animate_ops_def (f : Flux) (t : ℚ) :
    (f.animate t).ops
      = (drainLoop f.fluid_timestep ((f.animate t).flux.elapsed_time)
          (f.frame_time + usedDelta f t)).2.2
        ++ [Op.placeLines ((f.animate t).flux.elapsed_time) (usedDelta f t),
            Op.clearColor, Op.clear]
        ++ drawDispatch f.settings.mode := rfl

/-- A generic concrete state used to witness the animate-loop theorems:
`fluid_simulation_frame_rate = 30`, all clocks fresh. -/
def fluxW : Flux :=
  { settings := { fluid_simulation_frame_rate := 30, noise_channels := [],
                  mode := Mode.Normal }
    last_timestamp := 0
    elapsed_time := 0
    frame_time := 0
    fluid_timestep := 1 / 30 }

/-- C4: for every animate call on a state with a positive fixed substep and a
non-negative accumulator, the returned accumulator is below the fixed
substep, and it equals the entry accumulator plus the clamped delta minus a
whole multiple (the substep count) of the fixed substep: no substep is
partially executed and none that is due is skipped. -/
theorem C4_accumulator_drained (f : Flux) (t : ℚ)
    (hT : 0 < f.fluid_timestep) (hft : 0 ≤ f.frame_time) :
    (f.animate t).flux.frame_time < f.fluid_timestep ∧
    (f.animate t).flux.frame_time
      = f.frame_time + usedDelta f t
        - ((f.animate t).substeps : ℚ) * f.fluid_timestep := by
  refine ⟨?_, ?_⟩
  · rw [animate_frame_def]
    exact drain_lt _ _ hT
  · rw [animate_frame_def, animate_substeps_def]
    exact drain_frame _ _ _

/-- Witness for C4 at the concrete state `fluxW` and timestamp 16 ms. -/
theorem C4_witness :
    (0 < fluxW.fluid_timestep ∧ 0 ≤ fluxW.frame_time) ∧
    ((fluxW.animate 16).flux.frame_time < fluxW.fluid_timestep ∧
     (fluxW.animate 16).flux.frame_time
       = fluxW.frame_time + usedDelta fluxW 16
         - ((fluxW.animate 16).substeps : ℚ) * fluxW.fluid_timestep) :=
  ⟨⟨by norm_num [fluxW], by norm_num [fluxW]⟩,
   C4_accumulator_drained fluxW 16 (by norm_num [fluxW]) (by norm_num [fluxW])⟩

/-- C6: on a state satisfying `0 ≤ elapsed_time < MAX_ELAPSED_TIME`, an
animate call under the spec's monotonic clock (the new timestamp is not
behind `last_timestamp`) preserves the invariant, and when the horizon is
reached the timer is reduced by subtracting the horizon, not reset to 0. -/
theorem C6_elapsed_invariant (f : Flux) (t : ℚ)
    (hmono : f.last_timestamp ≤ t)
    (h0 : 0 ≤ f.elapsed_time) (h1 : f.elapsed_time < MAX_ELAPSED_TIME) :
    (0 ≤ (f.animate t).flux.elapsed_time ∧
     (f.animate t).flux.elapsed_time < MAX_ELAPSED_TIME) ∧
    (MAX_ELAPSED_TIME ≤ f.elapsed_time + usedDelta f t →
      (f.animate t).flux.elapsed_time
        = f.elapsed_time + usedDelta f t - MAX_ELAPSED_TIME) := by
  have hd0 : 0 ≤ usedDelta f t :=
    le_min (by norm_num [MAX_FRAME_TIME])
      (mul_nonneg (by norm_num) (sub_nonneg.mpr hmono))
  have hdle : usedDelta f t ≤ MAX_FRAME_TIME := min_le_left _ _
  have hM : MAX_ELAPSED_TIME = 1000 := rfl
  have hF : MAX_FRAME_TIME = 1 / 10 := rfl
  rw [hF] at hdle
  rw [hM] at h1
  constructor
  · rw [animate_elapsed_def]
    split
    · rename_i hc
      rw [hM] at hc ⊢
      exact ⟨hc, by linarith⟩
    · rename_i hc
      rw [hM] at hc ⊢
      push_neg at hc
      exact ⟨by linarith, by linarith⟩
  · intro hover
    rw [animate_elapsed_def, if_pos (sub_nonneg.mpr hover)]

/-- Witness for C6 at the concrete state `fluxW` and timestamp 16 ms. -/
theorem C6_witness :
    (fluxW.last_timestamp ≤ 16 ∧ 0 ≤ fluxW.elapsed_time ∧
      fluxW.elapsed_time < MAX_ELAPSED_TIME) ∧
    ((0 ≤ (fluxW.animate 16).flux.elapsed_time ∧
      (fluxW.animate 16).flux.elapsed_time < MAX_ELAPSED_TIME) ∧
     (MAX_ELAPSED_TIME ≤ fluxW.elapsed_time + usedDelta fluxW 16 →
      (fluxW.animate 16).flux.elapsed_time
        = fluxW.elapsed_time + usedDelta fluxW 16 - MAX_ELAPSED_TIME)) :=
  ⟨⟨by norm_num [fluxW], by norm_num [fluxW],
    by norm_num [fluxW, MAX_ELAPSED_TIME]⟩,
   C6_elapsed_invariant fluxW 16 (by norm_num [fluxW]) (by norm_num [fluxW])
     (by norm_num [fluxW, MAX_ELAPSED_TIME])⟩

/-- C7: with a positive fixed substep and a non-negative entry accumulator,
the number of substeps one animate call runs is finite and bounded by
(entry accumulator + MAX_FRAME_TIME) / fixedSubstep — the clamp bounds the
catch-up work (the loop is total here by construction, on the strength of
the same clamp). -/
theorem C7_substep_bound (f : Flux) (t : ℚ)
    (hT : 0 < f.fluid_timestep) (hft : 0 ≤ f.frame_time) :
    ((f.animate t).substeps : ℚ)
      ≤ (f.frame_time + MAX_FRAME_TIME) / f.fluid_timestep := by
  have hmul := drain_mul_le f.fluid_timestep ((f.animate t).flux.elapsed_time)
    (f.frame_time + usedDelta f t)
  rw [← animate_substeps_def] at hmul
  have hdle : usedDelta f t ≤ MAX_FRAME_TIME := min_le_left _ _
  have hF : (0 : ℚ) < MAX_FRAME_TIME := by norm_num [MAX_FRAME_TIME]
  have hmax : max (f.frame_time + usedDelta f t) 0
      ≤ f.frame_time + MAX_FRAME_TIME := by
    apply max_le
    · linarith
    · linarith
  rw [le_div_iff₀ hT]
  linarith

/-- Witness for C7 at the concrete state `fluxW` and timestamp 16 ms. -/
theorem C7_witness :
    (0 < fluxW.fluid_timestep ∧ 0 ≤ fluxW.frame_time) ∧
    ((fluxW.animate 16).substeps : ℚ)
      ≤ (fluxW.frame_time + MAX_FRAME_TIME) / fluxW.fluid_timestep :=
  ⟨⟨by norm_num [fluxW], by norm_num [fluxW]⟩,
   C7_substep_bound fluxW 16 (by norm_num [fluxW]) (by norm_num [fluxW])⟩

/-- C10: within a single animate call, `noise_generator.generate` is invoked
exactly once per substep, and always with the identical elapsed-time value —
the one computed at the start of the call (which is also the call's final
`elapsed_time`, since the loop never touches it). -/
theorem C10_noise_phase_constant (f : Flux) (t : ℚ) :
    (f.animate t).ops.filter Op.isNoiseGen
      = List.replicate (f.animate t).substeps
          (Op.noiseGenerate ((f.animate t).flux.elapsed_time)) := by
  rw [animate_ops_def, animate_substeps_def]
  rw [List.filter_append, List.filter_append]
  rw [drain_ops_noise, drawDispatch_no_noise]
  simp [Op.isNoiseGen]

/-- A copy of `f` whose settings carry render mode `m`; everything else,
including the clock and the substep duration, is unchanged. -/
def withMode (f : Flux) (m : Mode) : Flux :=
  { f with settings := { f.settings with mode := m } }

/-- C9: `settings.mode` affects only the final draw dispatch. Two animate
calls on states identical except for the mode produce the same clock state
and the same non-draw operation trace (in particular the same substeps); the
draw operations are exactly the selected path's, and `DebugPressure` draws
the pressure texture view and no other. -/
theorem C9_mode_only_affects_draw (f : Flux) (m₁ m₂ : Mode) (t : ℚ) :
    ((withMode f m₁).animate t).flux.elapsed_time
      = ((withMode f m₂).animate t).flux.elapsed_time ∧
    ((withMode f m₁).animate t).flux.frame_time
      = ((withMode f m₂).animate t).flux.frame_time ∧
    ((withMode f m₁).animate t).flux.last_timestamp
      = ((withMode f m₂).animate t).flux.last_timestamp ∧
    ((withMode f m₁).animate t).substeps = ((withMode f m₂).animate t).substeps ∧
    ((withMode f m₁).animate t).ops.filter (fun o => ! o.isDraw)
      = ((withMode f m₂).animate t).ops.filter (fun o => ! o.isDraw) ∧
    ((withMode f m₁).animate t).ops.filter Op.isDraw = drawDispatch m₁ ∧
    (m₁ = Mode.DebugPressure →
      ((withMode f m₁).animate t).ops.filter Op.isDraw
        = [Op.drawTexture Texture.pressure]) := by
  have hops : ∀ m : Mode, ((withMode f m).animate t).ops
      = (drainLoop f.fluid_timestep ((f.animate t).flux.elapsed_time)
          (f.frame_time + usedDelta f t)).2.2
        ++ [Op.placeLines ((f.animate t).flux.elapsed_time) (usedDelta f t),
            Op.clearColor, Op.clear]
        ++ drawDispatch m := fun _ => rfl
  have hdraw : ∀ m : Mode, ((withMode f m).animate t).ops.filter Op.isDraw
      = drawDispatch m := by
    intro m
    rw [hops m, List.filter_append, List.filter_append, drain_ops_nodraw,
        drawDispatch_all_draw]
    simp [Op.isDraw]
  refine ⟨rfl, rfl, rfl, rfl, ?_, hdraw m₁, ?_⟩
  · rw [hops m₁, hops m₂]
    simp only [List.filter_append, drawDispatch_no_other]
  · intro hm
    subst hm
    exact hdraw Mode.DebugPressure

/-- Witness for C9 at the concrete state `fluxW`, modes `DebugPressure` vs
`Normal`, timestamp 16 ms: the pressure path draws the pressure texture and
no other. -/
theorem C9_witness :
    ((withMode fluxW Mode.DebugPressure).animate 16).ops.filter Op.isDraw
      = [Op.drawTexture Texture.pressure] :=
  (C9_mode_only_affects_draw fluxW Mode.DebugPressure Mode.Normal 16).2.2.2.2.2.2 rfl

/-- Settings bundle with simulation rate 60, used for the C1 scenario. -/
def s60 : Settings :=
  { fluid_simulation_frame_rate := 60, noise_channels := [], mode := Mode.Normal }

/-- Settings bundle with simulation rate 30. -/
def s30 : Settings :=
  { fluid_simulation_frame_rate := 30, noise_channels := [], mode := Mode.Normal }

/-- The orchestrator state `Flux::new` yields for `s60`. -/
def fluxC1 : Flux :=
  { settings := s60
    last_timestamp := 0
    elapsed_time := 0
    frame_time := 0
    fluid_timestep := 1 / 60 }

/-- C1 counterexample: construct with rate 60, then `update` to rate 30. The
installed settings now say rate 30, but `fluid_timestep` is still 1/60 —
`update` does not recompute it, so the claimed invariant
`fixedSubstep = 1 / current rate` fails right after `update`. -/
theorem C1_counterexample :
    Flux.new s60 (Except.ok ()) (Except.ok ()) (Except.ok ()) = Except.ok fluxC1 ∧
    (fluxC1.update s30).fluid_timestep
      ≠ 1 / (fluxC1.update s30).settings.fluid_simulation_frame_rate := by
  refine ⟨rfl, ?_⟩
  show (1 : ℚ) / 60 ≠ 1 / 30
  norm_num

/-- C1 as amended: the substep duration equals 1 / rate of the settings
installed at construction; `update` swaps the settings bundle but leaves
`fluid_timestep` at its construction-time value. -/
theorem C1_fixed_substep (s₀ s₁ : Settings) (fr dr nr : Except RenderProblem Unit)
    (f : Flux) (h : Flux.new s₀ fr dr nr = Except.ok f) :
    f.fluid_timestep = 1 / s₀.fluid_simulation_frame_rate ∧
    (f.update s₁).settings = s₁ ∧
    (f.update s₁).fluid_timestep = 1 / s₀.fluid_simulation_frame_rate := by
  rcases fr with e | u
  · simp [Flux.new] at h
  · rcases dr with e | u
    · simp [Flux.new] at h
    · rcases nr with e | u
      · simp [Flux.new] at h
      · simp only [Flux.new, Except.ok.injEq] at h
        subst h
        exact ⟨rfl, rfl, rfl⟩

/-- Witness for C1's amended theorem at the concrete construction `s60`. -/
theorem C1_witness :
    Flux.new s60 (Except.ok ()) (Except.ok ()) (Except.ok ()) = Except.ok fluxC1 ∧
    (fluxC1.fluid_timestep = 1 / s60.fluid_simulation_frame_rate ∧
     (fluxC1.update s30).settings = s30 ∧
     (fluxC1.update s30).fluid_timestep = 1 / s60.fluid_simulation_frame_rate) :=
  ⟨rfl, C1_fixed_substep s60 s30 (Except.ok ()) (Except.ok ()) (Except.ok ()) fluxC1 rfl⟩

/-- C8: `Flux::new` succeeds exactly when all three component constructions
succeed; a failure of any of them surfaces as `CannotRender` wrapping the
underlying problem unchanged (its displayed detail is therefore preserved);
on success the clock starts with `last_timestamp = 0`, `elapsed_time = 0`,
an empty accumulator, and the substep derived from the given settings. -/
theorem C8_construction (s : Settings) (fr dr nr : Except RenderProblem Unit) :
    ((∃ f, Flux.new s fr dr nr = Except.ok f)
      ↔ (fr = Except.ok () ∧ dr = Except.ok () ∧ nr = Except.ok ())) ∧
    (∀ f : Flux, Flux.new s fr dr nr = Except.ok f →
      f.last_timestamp = 0 ∧ f.elapsed_time = 0 ∧ f.frame_time = 0 ∧
      f.settings = s ∧ f.fluid_timestep = 1 / s.fluid_simulation_frame_rate) ∧
    (∀ e : Problem, Flux.new s fr dr nr = Except.error e →
      ∃ p : RenderProblem, e = Problem.CannotRender p ∧ e.display = p ∧
        (fr = Except.error p ∨ dr = Except.error p ∨ nr = Except.error p)) := by
  rcases fr with e | u <;> rcases dr with e' | u' <;> rcases nr with e'' | u'' <;>
    simp [Flux.new, Problem.display]

/-- Witness for C8: a failing drawer construction surfaces as `CannotRender`
with its detail preserved, and the all-ok construction yields the fresh
clock state. -/
theorem C8_witness :
    Flux.new s30 (Except.ok ()) (Except.error "boom") (Except.ok ())
      = Except.error (Problem.CannotRender "boom") ∧
    ((Problem.CannotRender "boom").display = "boom" ∧
     fluxW.last_timestamp = 0 ∧ fluxW.elapsed_time = 0 ∧ fluxW.frame_time = 0) := by
  have hok := (C8_construction s30 (Except.ok ()) (Except.ok ())
    (Except.ok ())).2.1 fluxW (by rfl)
  exact ⟨rfl, ⟨rfl, hok.1, hok.2.1, hok.2.2.1⟩⟩

/-- The state `Flux::new` yields for `s30`: the start of the C2 scenario. -/
def fluxC2 : Flux :=
  { settings := s30
    last_timestamp := 0
    elapsed_time := 0
    frame_time := 0
    fluid_timestep := 1 / 30 }

theorem c2_flux1 : (fluxC2.animate 0).flux = fluxC2 := by
  have hd : usedDelta fluxC2 0 = 0 := by
    norm_num [usedDelta, fluxC2, MAX_FRAME_TIME, min_def]
  ext
  · rfl
  · rfl
  · rw [animate_elapsed_def, hd]
    norm_num [fluxC2, MAX_ELAPSED_TIME]
  · rw [animate_frame_def, hd]
    rw [drainLoop_zero (by norm_num [fluxC2])]
    norm_num
  · rfl

theorem c2_sub1 : (fluxC2.animate 0).substeps = 0 := by
  have hd : usedDelta fluxC2 0 = 0 := by
    norm_num [usedDelta, fluxC2, MAX_FRAME_TIME, min_def]
  rw [animate_substeps_def, hd]
  rw [drainLoop_zero (by norm_num [fluxC2])]

/-- The clock state after `animate(16)` in the C2 scenario. -/
def c2State2 : Flux :=
  { settings := s30
    last_timestamp := 16
    elapsed_time := 2 / 125
    frame_time := 2 / 125
    fluid_timestep := 1 / 30 }

theorem c2_flux2 : (fluxC2.animate 16).flux = c2State2 := by
  have hd : usedDelta fluxC2 16 = 2 / 125 := by
    norm_num [usedDelta, fluxC2, MAX_FRAME_TIME, min_def]
  ext
  · rfl
  · rfl
  · rw [animate_elapsed_def, hd]
    norm_num [fluxC2, c2State2, MAX_ELAPSED_TIME]
  · rw [animate_frame_def, hd]
    rw [drainLoop_zero (by norm_num [fluxC2])]
    norm_num [fluxC2, c2State2]
  · rfl

theorem c2_sub2 : (fluxC2.animate 16).substeps = 0 := by
  have hd : usedDelta fluxC2 16 = 2 / 125 := by
    norm_num [usedDelta, fluxC2, MAX_FRAME_TIME, min_def]
  rw [animate_substeps_def, hd]
  rw [drainLoop_zero (by norm_num [fluxC2])]

/-- The clock state after `animate(33)` in the C2 scenario: the accumulator
holds 0.033 s, still strictly below the 1/30 s substep. -/
def c2State3 : Flux :=
  { settings := s30
    last_timestamp := 33
    elapsed_time := 33 / 1000
    frame_time := 33 / 1000
    fluid_timestep := 1 / 30 }

theorem c2_flux3 : (c2State2.animate 33).flux = c2State3 := by
  have hd : usedDelta c2State2 33 = 17 / 1000 := by
    norm_num [usedDelta, c2State2, MAX_FRAME_TIME, min_def]
  ext
  · rfl
  · rfl
  · rw [animate_elapsed_def, hd]
    norm_num [c2State2, c2State3, MAX_ELAPSED_TIME]
  · rw [animate_frame_def, hd]
    rw [drainLoop_zero (by norm_num [c2State2])]
    norm_num [c2State2, c2State3]
  · rfl

theorem c2_sub3 : (c2State2.animate 33).substeps = 0 := by
  have hd : usedDelta c2State2 33 = 17 / 1000 := by
    norm_num [usedDelta, c2State2, MAX_FRAME_TIME, min_def]
  rw [animate_substeps_def, hd]
  rw [drainLoop_zero (by norm_num [c2State2])]

theorem c2_sub4 : (c2State3.animate 50).substeps = 1 := by
  have hd : usedDelta c2State3 50 = 17 / 1000 := by
    norm_num [usedDelta, c2State3, MAX_FRAME_TIME, min_def]
  rw [animate_substeps_def, hd]
  rw [drainLoop_one (by norm_num [c2State3]) (by norm_num [c2State3])
    (by norm_num [c2State3])]

/-- C2 counterexample: with rate 30 and a fresh orchestrator, the calls
`animate 0, 16, 33, 50` do NOT execute `0, 0, 1, 1` substeps as claimed —
after `animate 33` the accumulator holds 0.033 s, which is strictly below
the 1/30 s ≈ 0.0333 s threshold, so the third call runs 0 substeps. -/
theorem C2_counterexample :
    ¬ ((fluxC2.animate 0).substeps = 0 ∧
       ((fluxC2.animate 0).flux.animate 16).substeps = 0 ∧
       (((fluxC2.animate 0).flux.animate 16).flux.animate 33).substeps = 1 ∧
       ((((fluxC2.animate 0).flux.animate 16).flux.animate 33).flux.animate 50).substeps
         = 1) := by
  intro hclaim
  have h3 := hclaim.2.2.1
  rw [c2_flux1, c2_flux2, c2_sub3] at h3
  exact absurd h3 (by decide)

/-- C2 as amended: the four calls `animate 0, 16, 33, 50` on a freshly
constructed orchestrator with rate 30 execute `0, 0, 0, 1` substeps
(cumulative accumulator 0, 0.016, 0.033, 0.050 s against the threshold
1/30 s — 0.033 is still below it, 0.050 is not). -/
theorem C2_substep_counts :
    Flux.new s30 (Except.ok ()) (Except.ok ()) (Except.ok ()) = Except.ok fluxC2 ∧
    (fluxC2.animate 0).substeps = 0 ∧
    ((fluxC2.animate 0).flux.animate 16).substeps = 0 ∧
    (((fluxC2.animate 0).flux.animate 16).flux.animate 33).substeps = 0 ∧
    ((((fluxC2.animate 0).flux.animate 16).flux.animate 33).flux.animate 50).substeps
      = 1 := by
  refine ⟨rfl, c2_sub1, ?_, ?_, ?_⟩
  · rw [c2_flux1]
    exact c2_sub2
  · rw [c2_flux1, c2_flux2]
    exact c2_sub3
  · rw [c2_flux1, c2_flux2, c2_flux3]
    exact c2_sub4

/-- A state whose animation timer sits at 999.99 s, 0.01 s before the
wraparound horizon, with the C3 call's delta of 0.06 s pending at
timestamp 60 ms. -/
def fluxC3 : Flux :=
  { settings := s30
    last_timestamp := 0
    elapsed_time := 999.99
    frame_time := 0
    fluid_timestep := 1 / 30 }

theorem c3_elapsed : (fluxC3.animate 60).flux.elapsed_time = 0.05 := by
  have hd : usedDelta fluxC3 60 = 0.06 := by
    norm_num [usedDelta, fluxC3, MAX_FRAME_TIME, min_def]
  rw [animate_elapsed_def, hd]
  norm_num [fluxC3, MAX_ELAPSED_TIME]

/-- C3 counterexample: the delta 0.06 s pushes `elapsed_time` from 999.99 to
1000.05, past the 1000 s horizon — but the wrapped timer reads 0.05
(= 1000.05 − 1000.0), not the claimed 0.06. -/
theorem C3_counterexample :
    fluxC3.elapsed_time = 999.99 ∧
    fluxC3.elapsed_time + usedDelta fluxC3 60 = 1000.05 ∧
    (fluxC3.animate 60).flux.elapsed_time ≠ 0.06 := by
  refine ⟨by norm_num [fluxC3], ?_, ?_⟩
  · have hd : usedDelta fluxC3 60 = 0.06 := by
      norm_num [usedDelta, fluxC3, MAX_FRAME_TIME, min_def]
    rw [hd]
    norm_num [fluxC3]
  · rw [c3_elapsed]
    norm_num

/-- C3 as amended: pushing `elapsed_time` from 999.99 to 1000.05 leaves the
wrapped timer at 0.05 — the overflow past the 1000 s horizon — and in
particular not at the unwrapped 1000.05. -/
theorem C3_wraparound :
    fluxC3.elapsed_time = 999.99 ∧
    fluxC3.elapsed_time + usedDelta fluxC3 60 = 1000.05 ∧
    (fluxC3.animate 60).flux.elapsed_time = 0.05 ∧
    (fluxC3.animate 60).flux.elapsed_time ≠ 1000.05 := by
  refine ⟨by norm_num [fluxC3], ?_, c3_elapsed, ?_⟩
  · have hd : usedDelta fluxC3 60 = 0.06 := by
      norm_num [usedDelta, fluxC3, MAX_FRAME_TIME, min_def]
    rw [hd]
    norm_num [fluxC3]
  · rw [c3_elapsed]
    norm_num

/-- Timestamp sequences under the spec's monotonic clock whose raw per-call
deltas never exceed the clamp: each timestamp is at least the previous one
and advances it by at most `MAX_FRAME_TIME` seconds. -/
def deltasOk : ℚ → List ℚ → Bool
  | _, [] => true
  | prev, t :: rest =>
      decide (0 ≤ t - prev) && decide (0.001 * (t - prev) ≤ MAX_FRAME_TIME)
        && deltasOk t rest

/-- Repeated `Flux::animate` calls: the final state and the total number of
substeps executed across the calls. -/
def animateSeq (f : Flux) : List ℚ → Flux × ℕ
  | [] => (f, 0)
  | t :: rest =>
      let r := f.animate t
      let s := animateSeq r.flux rest
      (s.1, r.substeps + s.2)

/-- One animate call with an in-range, forward delta: the substep duration
is untouched, the timestamp is recorded, and the accumulator lands in
`[0, fixed substep)` after draining by whole multiples of the substep. -/
theorem animate_call_spec (f : Flux) (t : ℚ)
    (hT : 0 < f.fluid_timestep) (hft : 0 ≤ f.frame_time)
    (h0 : 0 ≤ t - f.last_timestamp)
    (h1 : 0.001 * (t - f.last_timestamp) ≤ MAX_FRAME_TIME) :
    (f.animate t).flux.fluid_timestep = f.fluid_timestep ∧
    (f.animate t).flux.last_timestamp = t ∧
    0 ≤ (f.animate t).flux.frame_time ∧
    (f.animate t).flux.frame_time < f.fluid_timestep ∧
    (f.animate t).flux.frame_time
      = f.frame_time + 0.001 * (t - f.last_timestamp)
        - ((f.animate t).substeps : ℚ) * f.fluid_timestep := by
  have hused : usedDelta f t = 0.001 * (t - f.last_timestamp) := min_eq_right h1
  have hd0 : 0 ≤ usedDelta f t := by
    rw [hused]
    exact mul_nonneg (by norm_num) h0
  refine ⟨rfl, rfl, ?_, ?_, ?_⟩
  · rw [animate_frame_def]
    exact drain_nonneg _ _ _ (by linarith)
  · rw [animate_frame_def]
    exact drain_lt _ _ hT
  · rw [animate_frame_def, animate_substeps_def, ← hused]
    exact drain_frame _ _ _

/-- Invariant of a run of animate calls under in-range forward deltas: the
final accumulator is in `[0, fixed substep)` and equals the starting
accumulator plus the total time fed in minus (total substeps) × substep. -/
theorem animateSeq_spec (stamps : List ℚ) : ∀ f : Flux,
    0 < f.fluid_timestep → 0 ≤ f.frame_time → f.frame_time < f.fluid_timestep →
    deltasOk f.last_timestamp stamps = true →
    (animateSeq f stamps).1.fluid_timestep = f.fluid_timestep ∧
    0 ≤ (animateSeq f stamps).1.frame_time ∧
    (animateSeq f stamps).1.frame_time < f.fluid_timestep ∧
    (animateSeq f stamps).1.frame_time
      = f.frame_time
        + 0.001 * (stamps.getLastD f.last_timestamp - f.last_timestamp)
        - ((animateSeq f stamps).2 : ℚ) * f.fluid_timestep := by
  induction stamps with
  | nil =>
      intro f hT h0 h1 _
      refine ⟨rfl, h0, h1, ?_⟩
      show f.frame_time = f.frame_time + 0.001 * (f.last_timestamp - f.last_timestamp)
        - ((0 : ℕ) : ℚ) * f.fluid_timestep
      push_cast
      ring
  | cons t rest ih =>
      intro f hT h0 h1 hd
      have hdc := hd
      simp only [deltasOk, Bool.and_eq_true, decide_eq_true_eq] at hdc
      obtain ⟨⟨hd0', hd1⟩, hdrest⟩ := hdc
      have hd0 : 0 ≤ t - f.last_timestamp := hd0'
      obtain ⟨hts, hlast, hnn, hlt, heq⟩ := animate_call_spec f t hT h0 hd0 hd1
      obtain ⟨its, inn, ilt, ieq⟩ := ih ((f.animate t).flux)
        (by rw [hts]; exact hT) hnn (by rw [hts]; exact hlt)
        (by rw [hlast]; exact hdrest)
      have hseq1 : (animateSeq f (t :: rest)).1
          = (animateSeq (f.animate t).flux rest).1 := rfl
      have hseq2 : ((animateSeq f (t :: rest)).2 : ℚ)
          = ((f.animate t).substeps : ℚ)
            + ((animateSeq (f.animate t).flux rest).2 : ℚ) := by
        show (((f.animate t).substeps + (animateSeq (f.animate t).flux rest).2 : ℕ) : ℚ)
          = _
        push_cast
        ring
      rw [hts] at its ilt
      rw [hts, hlast] at ieq
      refine ⟨?_, ?_, ?_, ?_⟩
      · rw [hseq1]
        exact its
      · rw [hseq1]
        exact inn
      · rw [hseq1]
        exact ilt
      · rw [hseq1, ieq, heq, hseq2, List.getLastD_cons]
        ring

/-- C5: frame-rate independence. Starting from an empty accumulator with a
positive fixed substep `T`, any sequence of animate calls under the
monotonic clock whose per-call deltas are each at most `MAX_FRAME_TIME` and
whose deltas sum to exactly `k*T` executes exactly `k` substeps in total,
however the total is split across calls. -/
theorem C5_frame_rate_independence (f : Flux) (stamps : List ℚ) (k : ℕ)
    (hT : 0 < f.fluid_timestep) (hft : f.frame_time = 0)
    (hd : deltasOk f.last_timestamp stamps = true)
    (hsum : 0.001 * (stamps.getLastD f.last_timestamp - f.last_timestamp)
      = (k : ℚ) * f.fluid_timestep) :
    (animateSeq f stamps).2 = k := by
  obtain ⟨_, hnn, hlt, heq⟩ :=
    animateSeq_spec stamps f hT (by rw [hft]) (by rw [hft]; exact hT) hd
  rw [hft, hsum] at heq
  have h1 : ((k : ℚ) - ((animateSeq f stamps).2 : ℚ)) * f.fluid_timestep
      = (animateSeq f stamps).1.frame_time := by
    rw [heq]
    ring
  have hkN : ((animateSeq f stamps).2 : ℚ) ≤ (k : ℚ) := by
    by_contra hc
    push_neg at hc
    have hneg : ((k : ℚ) - ((animateSeq f stamps).2 : ℚ)) * f.fluid_timestep < 0 :=
      mul_neg_of_neg_of_pos (by linarith) hT
    rw [h1] at hneg
    linarith
  have hNk : (k : ℚ) - ((animateSeq f stamps).2 : ℚ) < 1 := by
    have h2 : ((k : ℚ) - ((animateSeq f stamps).2 : ℚ)) * f.fluid_timestep
        < 1 * f.fluid_timestep := by
      rw [h1, one_mul]
      exact hlt
    exact (mul_lt_mul_right hT).mp h2
  have hk2 : k < (animateSeq f stamps).2 + 1 := by
    have : (k : ℚ) < ((animateSeq f stamps).2 : ℚ) + 1 := by linarith
    exact_mod_cast this
  have hk3 : (animateSeq f stamps).2 ≤ k := by exact_mod_cast hkN
  omega

/-- Witness for C5: total advance 1/30 s (= 1 substep) split as two deltas
of 1/60 s each; exactly one substep runs, on the second call. -/
theorem C5_witness :
    (0 < fluxW.fluid_timestep ∧ fluxW.frame_time = 0 ∧
     deltasOk fluxW.last_timestamp [50 / 3, 100 / 3] = true ∧
     0.001 * (([50 / 3, 100 / 3] : List ℚ).getLastD fluxW.last_timestamp
       - fluxW.last_timestamp) = ((1 : ℕ) : ℚ) * fluxW.fluid_timestep) ∧
    (animateSeq fluxW [50 / 3, 100 / 3]).2 = 1 :=
  ⟨⟨by norm_num [fluxW], rfl, by norm_num [deltasOk, fluxW, MAX_FRAME_TIME],
    by norm_num [fluxW, List.getLastD_cons, List.getLastD_nil]⟩,
   C5_frame_rate_independence fluxW [50 / 3, 100 / 3] 1 (by norm_num [fluxW]) rfl
     (by norm_num [deltasOk, fluxW, MAX_FRAME_TIME])
     (by norm_num [fluxW, List.getLastD_cons, List.getLastD_nil])⟩
